import Mathlib

/-!
Shallow embedding of the authentication and authorization core of a
multi-user blogging backend: JWT token issuance/verification, the
bearer-token middleware, per-post ownership checks, registration/login,
and the password-reset flow.

Sources embedded:
- backend/controllers/postController.js (post CRUD, user registration,
  login, current-user endpoint, forgot-password, reset-password,
  generateJWT)
- the auth middleware (function protect)
- prisma/schema.prisma (User and Post rows)
-/

namespace AuthApp

/-- A stored user row, after prisma/schema.prisma model User.
Timestamps are milliseconds since epoch (JS Date). -/
structure User where
  id : Nat
  email : String
  username : String
  password : String
  passwordResetToken : Option String
  passwordResetTokenExpiry : Option Nat
deriving Repr, DecidableEq

/-- A stored post row, after prisma/schema.prisma model Post. -/
structure Post where
  id : Nat
  title : String
  body : Option String
  created_by : Nat
deriving Repr, DecidableEq

/-- The identity projection the middleware selects from the store
(select id, username, email) and that /users/me responds with. -/
structure Identity where
  id : Nat
  username : String
  email : String
deriving Repr, DecidableEq

/-- Project a stored row to the {id, username, email} selection. -/
def User.project (u : User) : Identity :=
  ⟨u.id, u.username, u.email⟩

/-- An error handed to next(err): its status field and message. -/
structure ApiErr where
  status : Nat
  message : String
deriving Repr, DecidableEq

/-- Point lookup of a user row by id (prisma user.findUnique where id). -/
def findUserById (users : List User) (uid : Nat) : Option User :=
  users.find? (fun u => u.id = uid)

/-- Point lookup of a user row by email (prisma user.findUnique where email). -/
def findUserByEmail (users : List User) (email : String) : Option User :=
  users.find? (fun u => u.email = email)

/-- Point lookup of a user row by username. -/
def findUserByUsername (users : List User) (username : String) : Option User :=
  users.find? (fun u => u.username = username)

/-- Point lookup of a post row by id (prisma post.findUnique where id). -/
def findPostById (posts : List Post) (pid : Nat) : Option Post :=
  posts.find? (fun p => p.id = pid)

/-! ### Token Service (generateJWT and jwt.verify) -/

/-- The payload jwt.sign produces for sign({id}, secret, {expiresIn: "30d"}):
the user id, the issued-at time and the expiry, in seconds. -/
structure JwtPayload where
  id : Nat
  iat : Nat
  exp : Nat
deriving Repr, DecidableEq

/-- A signed token: payload plus the signature bytes the library computes
from the secret and the payload. The signing primitive itself (HMAC) is
external; it enters as the parameter mac. -/
structure Jwt where
  payload : JwtPayload
  sig : String
deriving Repr, DecidableEq

/-- expiresIn "30d" in seconds. -/
def thirtyDays : Nat := 30 * 24 * 60 * 60

/-- generateJWT from the controller:
jwt.sign({ id }, process.env.JWT_SECRET, { expiresIn: "30d" }).
now is the issued-at clock reading in seconds. -/
def generateJWT (mac : String → JwtPayload → String) (secret : String)
    (id : Nat) (now : Nat) : Jwt :=
  let payload : JwtPayload := ⟨id, now, now + thirtyDays⟩
  ⟨payload, mac secret payload⟩

/-- jwt.verify(token, secret) at clock reading now: checks the signature
and that the token is not expired (jsonwebtoken fails when the clock is
at or past exp); yields the embedded id on success, none on any failure. -/
def jwtVerify (mac : String → JwtPayload → String) (secret : String)
    (t : Jwt) (now : Nat) : Option Nat :=
  if t.sig = mac secret t.payload then
    if t.payload.exp ≤ now then none else some t.payload.id
  else none

/-! ### Auth middleware (protect) -/

/-- One call the middleware makes to next: either next() handing the
request (with whatever req.user holds) to the downstream handler, or
next(err) propagating an error. -/
inductive Dispatch where
  | handler (user : Option Identity)
  | errorOut (e : ApiErr)
deriving Repr, DecidableEq

/-- The message of the missing-credential error in protect. -/
def missingCredMsg : String := "Request is missing required authentication credential."

/-- JS String.prototype.split(sep) for a one-character separator, on the
character list of the string: consecutive separators yield empty pieces
and a trailing separator yields a trailing empty piece. -/
def splitOnChar (sep : Char) : List Char → List (List Char)
  | [] => [[]]
  | c :: cs =>
    let rest := splitOnChar sep cs
    if c = sep then [] :: rest
    else
      match rest with
      | [] => [[c]]
      | r :: rs => (c :: r) :: rs

/-- JS h.startsWith("Bearer ") of the middleware's header guard. -/
def bearerScheme (h : String) : Bool :=
  "Bearer ".toList.isPrefixOf h.toList

/-- The token the middleware extracts: req.headers.authorization.split(" ")[1]
(empty when there is nothing after the first space). -/
def extractToken (h : String) : String :=
  String.mk ((splitOnChar ' ' h.toList).getD 1 [])

/-- The auth middleware, function protect. verify stands for
jwt.verify(-, process.env.JWT_SECRET) on the raw token string, yielding
the decoded id or failing. The result is the list of next(...) calls the
middleware performs, in order: a faithful rendering of its control flow,
in which the final if (!token) check runs after the try/catch whenever
the Bearer branch was taken, and runs alone when it was not. -/
def protect (verify : String → Option Nat) (users : List User)
    (authorization : Option String) : List Dispatch :=
  match authorization with
  | some h =>
    if bearerScheme h then
      let token := extractToken h
      let tryCatch :=
        match verify token with
        | some uid => [Dispatch.handler ((findUserById users uid).map User.project)]
        | none => [Dispatch.errorOut ⟨401, "Unauthorized"⟩]
      tryCatch ++ (if token = "" then [Dispatch.errorOut ⟨401, missingCredMsg⟩] else [])
    else [Dispatch.errorOut ⟨401, missingCredMsg⟩]
  | none => [Dispatch.errorOut ⟨401, missingCredMsg⟩]

/-! ### Post controller -/

/-- The not-found message of the post endpoints
(JS: No post with id ... was found). -/
def noPostMsg (pid : Nat) : String :=
  "No post with id " ++ toString pid ++ " was found"

/-- asyncGetPost: resolve the post by id; 404 when absent; 401 when its
created_by differs from the authenticated user id; otherwise respond with
the post. -/
def asyncGetPost (posts : List Post) (userId pid : Nat) : Except ApiErr Post :=
  match findPostById posts pid with
  | none => .error ⟨404, noPostMsg pid⟩
  | some p =>
    if p.created_by ≠ userId then
      .error ⟨401, "You are not authorized to view this post"⟩
    else
      .ok p

/-- JS truthiness test for an optional request-body string field:
a missing field (undefined) and the empty string are falsy. -/
def jsFalsyStr : Option String → Bool
  | none => true
  | some s => s = ""

/-- asyncCreatePost: reject a falsy title (the code attaches status 404
to the please-include-a-title error), otherwise insert a post owned by
the authenticated user. newPid is the id the store assigns. An absent
body stays absent. -/
def asyncCreatePost (posts : List Post) (userId newPid : Nat)
    (title body : Option String) : List Post × Except ApiErr Post :=
  if jsFalsyStr title then
    (posts, .error ⟨404, "Please include a title field"⟩)
  else
    let p : Post := ⟨newPid, title.getD "", body, userId⟩
    (posts ++ [p], .ok p)

/-- asyncUpdatePost: resolve, 404 when absent, 401 on owner mismatch,
else update. A field absent from the request body (undefined) is skipped
by the store, so the stored value is kept. -/
def asyncUpdatePost (posts : List Post) (userId pid : Nat)
    (title body : Option String) : List Post × Except ApiErr Post :=
  match findPostById posts pid with
  | none => (posts, .error ⟨404, noPostMsg pid⟩)
  | some p =>
    if p.created_by ≠ userId then
      (posts, .error ⟨401, "You are not authorized to update this post"⟩)
    else
      let p' : Post :=
        { p with
          title := title.getD p.title
          body := match body with
            | some b => some b
            | none => p.body }
      (posts.map (fun q => if q.id = pid then p' else q), .ok p')

/-- asyncDeletePost: resolve, 404 when absent, 401 on owner mismatch,
else delete the row (the endpoint then responds 204 with no body). -/
def asyncDeletePost (posts : List Post) (userId pid : Nat) :
    List Post × Except ApiErr Unit :=
  match findPostById posts pid with
  | none => (posts, .error ⟨404, noPostMsg pid⟩)
  | some p =>
    if p.created_by ≠ userId then
      (posts, .error ⟨401, "You are not authorized to delete this post"⟩)
    else
      (posts.filter (fun q => q.id ≠ pid), .ok ())

/-! ### User controller -/

/-- The body of the 201/200 responses of register and login:
{ id, username, email, token }. -/
structure AuthResponse where
  id : Nat
  username : String
  email : String
  token : Jwt
deriving Repr, DecidableEq

/-- asyncRegisterUser: bcrypt-hash the password (hash stands for
bcrypt.hash with its salt fixed) and insert the row; the store rejects a
duplicate email or username with P2002, which the controller maps to a
400 conflict error. newId is the id the store assigns. The created row
has both reset fields null. -/
def asyncRegisterUser (hash : String → String)
    (mac : String → JwtPayload → String) (secret : String)
    (users : List User) (newId : Nat)
    (username email password : String) (now : Nat) :
    List User × Except ApiErr AuthResponse :=
  if users.any (fun u => u.email = email || u.username = username) then
    (users, .error ⟨400, "Email or username already exists."⟩)
  else
    let u : User := ⟨newId, email, username, hash password, none, none⟩
    (users ++ [u], .ok ⟨u.id, u.username, u.email, generateJWT mac secret u.id now⟩)

/-- asyncLoginUser: look the user up by username; on a bcrypt match
(compare stands for bcrypt.compare) respond with the auth body, else 401. -/
def asyncLoginUser (compare : String → String → Bool)
    (mac : String → JwtPayload → String) (secret : String)
    (users : List User) (username password : String) (now : Nat) :
    Except ApiErr AuthResponse :=
  match findUserByUsername users username with
  | some u =>
    if compare password u.password then
      .ok ⟨u.id, u.username, u.email, generateJWT mac secret u.id now⟩
    else
      .error ⟨401, "Couldn\x27t find your account."⟩
  | none => .error ⟨401, "Couldn\x27t find your account."⟩

/-- asyncGetUserData: look the authenticated id up and respond with the
destructured { id, username, email } selection (none when the row is
gone, in which case the JS destructuring throws instead of responding). -/
def asyncGetUserData (users : List User) (uid : Nat) : Option Identity :=
  (findUserById users uid).map User.project

/-! ### Password reset flow -/

/-- Lowercase hex digit of a value below 16. -/
def hexDigit (n : Nat) : Char :=
  if n < 10 then Char.ofNat (48 + n) else Char.ofNat (87 + n)

/-- Two-digit lowercase hex rendering of one byte. -/
def byteToHex (b : Nat) : List Char :=
  [hexDigit (b / 16 % 16), hexDigit (b % 16)]

/-- crypto.randomBytes(n).toString("hex"): hex-encode the drawn bytes. -/
def bytesToHex (bs : List Nat) : String :=
  String.mk (bs.map byteToHex).flatten

/-- The reset-window length: 1000 * 60 * 10 milliseconds. -/
def tenMinutesMs : Nat := 1000 * 60 * 10

/-- asyncForgotPassword: 404 when no row has the email; else persist the
hex encoding of crypto.randomBytes(32) as the token and expiry
now + 10 minutes on that row in one update, dispatch the email, and
respond with the generic success message. randomBytes is the entropy
source (randomBytes n draws n bytes); emailSendFails tells whether the
awaited mail dispatch throws — the enclosing catch only logs, so control
reaches the same 200 response either way. -/
def asyncForgotPassword (randomBytes : Nat → List Nat) (users : List User)
    (email : String) (now : Nat) (emailSendFails : Bool) :
    List User × Except ApiErr String :=
  match findUserByEmail users email with
  | none => (users, .error ⟨404, "Couldn\x27t find your account."⟩)
  | some _ =>
    let resetToken := bytesToHex (randomBytes 32)
    let resetTokenExpiry := now + tenMinutesMs
    let users' := users.map (fun u =>
      if u.email = email then
        { u with
          passwordResetToken := some resetToken
          passwordResetTokenExpiry := some resetTokenExpiry }
      else u)
    if emailSendFails then
      (users', .ok "Password reset link sent to your email.")
    else
      (users', .ok "Password reset link sent to your email.")

/-- The findFirst filter of asyncResetPassword: the row's persisted
passwordResetToken equals the presented token and its
passwordResetTokenExpiry is at or after now (gte new Date()); a row with
a null expiry never satisfies the gte filter. -/
def resetMatch (token : String) (now : Nat) (u : User) : Bool :=
  u.passwordResetToken = some token &&
    match u.passwordResetTokenExpiry with
    | some e => now ≤ e
    | none => false

/-- asyncResetPassword: find a row matching the presented token with an
unexpired window; none → the generic 400 invalid-or-expired error and no
write; some → one update writing the bcrypt hash of the new password and
nulling both reset fields. -/
def asyncResetPassword (hash : String → String) (users : List User)
    (token newPassword : String) (now : Nat) :
    List User × Except ApiErr String :=
  match users.find? (fun u => resetMatch token now u) with
  | none => (users, .error ⟨400, "Invalid or expired token."⟩)
  | some u =>
    let hashedPassword := hash newPassword
    (users.map (fun v =>
      if v.id = u.id then
        { v with
          password := hashedPassword
          passwordResetToken := none
          passwordResetTokenExpiry := none }
      else v),
     .ok "Password has been reset successfully.")

/-- Equality of operation results is decidable componentwise. -/
instance {ε α : Type} [DecidableEq ε] [DecidableEq α] : DecidableEq (Except ε α)
  | .error a, .error b =>
    if h : a = b then .isTrue (by rw [h]) else .isFalse (by simp [h])
  | .error _, .ok _ => .isFalse (by simp)
  | .ok _, .error _ => .isFalse (by simp)
  | .ok a, .ok b =>
    if h : a = b then .isTrue (by rw [h]) else .isFalse (by simp [h])

/-- The user-row invariant of the data model: the reset-token field and
the reset-token-expiry field are both set or both null. -/
def resetConsistent (u : User) : Prop :=
  u.passwordResetToken.isSome = u.passwordResetTokenExpiry.isSome

instance (u : User) : Decidable (resetConsistent u) := by
  unfold resetConsistent
  infer_instance

/-! ### Theorems -/

/-- C1: for get, update and delete of a post by an authenticated user:
an existing post owned by someone else yields the 401 ownership error and
leaves the store untouched; an owned post lets the operation proceed and
succeed; a missing id yields the 404 not-found error. -/
theorem c1_ownership_guard (posts : List Post) (userId pid : Nat)
    (title body : Option String) :
    (findPostById posts pid = none →
      asyncGetPost posts userId pid = .error ⟨404, noPostMsg pid⟩ ∧
      asyncUpdatePost posts userId pid title body = (posts, .error ⟨404, noPostMsg pid⟩) ∧
      asyncDeletePost posts userId pid = (posts, .error ⟨404, noPostMsg pid⟩)) ∧
    (∀ p, findPostById posts pid = some p → p.created_by ≠ userId →
      asyncGetPost posts userId pid = .error ⟨401, "You are not authorized to view this post"⟩ ∧
      asyncUpdatePost posts userId pid title body =
        (posts, .error ⟨401, "You are not authorized to update this post"⟩) ∧
      asyncDeletePost posts userId pid =
        (posts, .error ⟨401, "You are not authorized to delete this post"⟩)) ∧
    (∀ p, findPostById posts pid = some p → p.created_by = userId →
      asyncGetPost posts userId pid = .ok p ∧
      (∃ p', (asyncUpdatePost posts userId pid title body).2 = .ok p') ∧
      (asyncDeletePost posts userId pid).2 = .ok ()) := by
  refine ⟨fun hnone => ?_, fun p hp hne => ?_, fun p hp howner => ?_⟩
  · simp [asyncGetPost, asyncUpdatePost, asyncDeletePost, hnone]
  · simp [asyncGetPost, asyncUpdatePost, asyncDeletePost, hp, hne]
  · simp [asyncGetPost, asyncUpdatePost, asyncDeletePost, hp, howner]

/-- C1 witness: a concrete store with one post owned by user 10; user 11
is refused with the 401 ownership error, user 10 succeeds on all three
operations, and an absent id yields 404. -/
theorem c1_ownership_guard_witness :
    asyncGetPost [⟨1, "t", none, 10⟩] 11 1 =
      .error ⟨401, "You are not authorized to view this post"⟩ ∧
    asyncUpdatePost [⟨1, "t", none, 10⟩] 11 1 (some "u") none =
      ([⟨1, "t", none, 10⟩], .error ⟨401, "You are not authorized to update this post"⟩) ∧
    asyncGetPost [⟨1, "t", none, 10⟩] 10 1 = .ok ⟨1, "t", none, 10⟩ ∧
    (asyncDeletePost [⟨1, "t", none, 10⟩] 10 1).2 = .ok () ∧
    asyncGetPost [⟨1, "t", none, 10⟩] 10 2 = .error ⟨404, noPostMsg 2⟩ := by
  have hmis := (c1_ownership_guard [⟨1, "t", none, 10⟩] 11 1 (some "u") none).2.1
    ⟨1, "t", none, 10⟩ (by decide) (by decide)
  have hown := (c1_ownership_guard [⟨1, "t", none, 10⟩] 10 1 (some "u") none).2.2
    ⟨1, "t", none, 10⟩ (by decide) (by decide)
  have habs := (c1_ownership_guard [⟨1, "t", none, 10⟩] 10 2 (some "u") none).1 (by decide)
  exact ⟨hmis.1, hmis.2.1, hown.1, hown.2.2, habs.1⟩

/-- C2: for the Authorization header consisting of the bare string
Bearer-space, the extracted token is empty, verification fails, and the
middleware calls next with an error in the catch branch and then again in
the trailing falsy-token branch: the error outcome is propagated twice,
not exactly once. -/
theorem c2_double_dispatch_on_bare_bearer :
    protect (fun _ => none) [] (some "Bearer ") =
      [Dispatch.errorOut ⟨401, "Unauthorized"⟩,
       Dispatch.errorOut ⟨401, missingCredMsg⟩] ∧
    (protect (fun _ => none) [] (some "Bearer ")).length = 2 := by
  decide

/-- C3: with a verifier accepting the presented token as user 7 and a
store holding no user 7, the middleware attaches a null identity and
still invokes the downstream handler — it does not short-circuit with
Unauthorized. -/
theorem c3_null_identity_proceeds :
    protect (fun t => if t = "tok" then some 7 else none) [] (some "Bearer tok") =
      [Dispatch.handler none] := by
  decide

/-- C4: verifying a freshly issued token yields the id it was issued
for; the issued token embeds expiry = issuance + 30 days; and
verification fails at every clock reading at or past that expiry. -/
theorem c4_jwt_roundtrip_and_expiry (mac : String → JwtPayload → String)
    (secret : String) (uid now : Nat) :
    jwtVerify mac secret (generateJWT mac secret uid now) now = some uid ∧
    (generateJWT mac secret uid now).payload.exp = now + 30 * 24 * 60 * 60 ∧
    (∀ t, now + 30 * 24 * 60 * 60 ≤ t →
      jwtVerify mac secret (generateJWT mac secret uid now) t = none) := by
  refine ⟨?_, rfl, fun t ht => ?_⟩
  · simp [jwtVerify, generateJWT, thirtyDays]
  · simp [jwtVerify, generateJWT, thirtyDays] at ht ⊢
    omega

/-- C4 witness: a concrete issuance at clock 100 for user 5 verifies to
user 5 at clock 100 and fails at clock 100 + 30 days. -/
theorem c4_jwt_roundtrip_and_expiry_witness :
    jwtVerify (fun _ _ => "sig") "k" (generateJWT (fun _ _ => "sig") "k" 5 100) 100 = some 5 ∧
    jwtVerify (fun _ _ => "sig") "k" (generateJWT (fun _ _ => "sig") "k" 5 100)
      (100 + 30 * 24 * 60 * 60) = none := by
  exact ⟨(c4_jwt_roundtrip_and_expiry (fun _ _ => "sig") "k" 5 100).1,
    (c4_jwt_roundtrip_and_expiry (fun _ _ => "sig") "k" 5 100).2.2
      (100 + 30 * 24 * 60 * 60) (by omega)⟩

/-- The findFirst filter in spec terms: a row matches iff it stores the
presented token and an expiry at or after now. -/
theorem resetMatch_iff (token : String) (now : Nat) (u : User) :
    resetMatch token now u = true ↔
      (u.passwordResetToken = some token ∧
        ∃ e, u.passwordResetTokenExpiry = some e ∧ now ≤ e) := by
  cases hx : u.passwordResetTokenExpiry <;> simp [resetMatch, hx]

/-- C5: completing a reset with a token no row holds live (wrong token,
or held only with an elapsed expiry) yields the generic 400 error and
leaves the store unchanged; with a token the findFirst lookup resolves,
one single update writes the hash of the new password and nulls both
reset fields of that row, leaving every other row unchanged. -/
theorem c5_reset_completion (hash : String → String) (users : List User)
    (token newPassword : String) (now : Nat) :
    ((∀ u ∈ users, ¬ (u.passwordResetToken = some token ∧
        ∃ e, u.passwordResetTokenExpiry = some e ∧ now ≤ e)) →
      asyncResetPassword hash users token newPassword now =
        (users, .error ⟨400, "Invalid or expired token."⟩)) ∧
    (∀ u, users.find? (fun v => resetMatch token now v) = some u →
      (asyncResetPassword hash users token newPassword now).2 =
        .ok "Password has been reset successfully." ∧
      (asyncResetPassword hash users token newPassword now).1 =
        users.map (fun v => if v.id = u.id then
          { v with
            password := hash newPassword
            passwordResetToken := none
            passwordResetTokenExpiry := none }
          else v) ∧
      ∃ v ∈ (asyncResetPassword hash users token newPassword now).1,
        v.id = u.id ∧ v.password = hash newPassword ∧
        v.passwordResetToken = none ∧ v.passwordResetTokenExpiry = none) := by
  constructor
  · intro hno
    have hfind : users.find? (fun v => resetMatch token now v) = none := by
      rw [List.find?_eq_none]
      intro v hv hmatch
      exact hno v hv ((resetMatch_iff token now v).mp hmatch)
    simp [asyncResetPassword, hfind]
  · intro u hfind
    have hmem : u ∈ users := List.mem_of_find?_eq_some hfind
    refine ⟨by simp [asyncResetPassword, hfind], by simp [asyncResetPassword, hfind], ?_⟩
    refine ⟨{ u with
      password := hash newPassword
      passwordResetToken := none
      passwordResetTokenExpiry := none }, ?_, by simp⟩
    have h1 := List.mem_map_of_mem (fun v => if v.id = u.id then
      { v with
        password := hash newPassword
        passwordResetToken := none
        passwordResetTokenExpiry := none } else v) hmem
    simpa [asyncResetPassword, hfind] using h1

/-- C5 witness: one row holding token r with expiry 1000; completion at
clock 500 with token r succeeds, with the wrong token bad it yields the
generic 400 error and the row is unchanged. -/
theorem c5_reset_completion_witness :
    (asyncResetPassword (fun s => "h" ++ s)
      [⟨1, "a@b", "al", "H", some "r", some 1000⟩] "r" "new" 500).2 =
      .ok "Password has been reset successfully." ∧
    asyncResetPassword (fun s => "h" ++ s)
      [⟨1, "a@b", "al", "H", some "r", some 1000⟩] "bad" "new" 500 =
      ([⟨1, "a@b", "al", "H", some "r", some 1000⟩],
        .error ⟨400, "Invalid or expired token."⟩) := by
  constructor
  · exact ((c5_reset_completion (fun s => "h" ++ s)
      [⟨1, "a@b", "al", "H", some "r", some 1000⟩] "r" "new" 500).2
      ⟨1, "a@b", "al", "H", some "r", some 1000⟩ (by decide)).1
  · refine (c5_reset_completion (fun s => "h" ++ s)
      [⟨1, "a@b", "al", "H", some "r", some 1000⟩] "bad" "new" 500).1 ?_
    intro u hu
    rw [List.mem_singleton] at hu
    subst hu
    rintro ⟨h1, _⟩
    exact absurd h1 (by decide)

/-- Hex encoding yields two characters per byte. -/
theorem bytesToHex_length (bs : List Nat) : (bytesToHex bs).length = 2 * bs.length := by
  induction bs with
  | nil => rfl
  | cons b tl ih =>
      simp [bytesToHex, byteToHex, String.length] at ih ⊢
      omega

/-- C6: requesting a reset for an email with no stored row fails 404;
for a stored row it hex-encodes the 32 drawn random bytes (64 hex
characters), sets expiry to now plus ten minutes, persists both on that
row in one update overwriting any prior pending token, and responds with
the generic success message whether or not the email dispatch fails. -/
theorem c6_forgot_password (randomBytes : Nat → List Nat) (users : List User)
    (email : String) (now : Nat) (fails : Bool) :
    (findUserByEmail users email = none →
      asyncForgotPassword randomBytes users email now fails =
        (users, .error ⟨404, "Couldn\x27t find your account."⟩)) ∧
    (∀ u0, findUserByEmail users email = some u0 →
      ((randomBytes 32).length = 32 →
        (bytesToHex (randomBytes 32)).length = 2 * 32) ∧
      (asyncForgotPassword randomBytes users email now fails).2 =
        .ok "Password reset link sent to your email." ∧
      asyncForgotPassword randomBytes users email now true =
        asyncForgotPassword randomBytes users email now false ∧
      (asyncForgotPassword randomBytes users email now fails).1 =
        users.map (fun u => if u.email = email then
          { u with
            passwordResetToken := some (bytesToHex (randomBytes 32))
            passwordResetTokenExpiry := some (now + tenMinutesMs) }
          else u) ∧
      tenMinutesMs = 10 * 60 * 1000 ∧
      ∃ v ∈ (asyncForgotPassword randomBytes users email now fails).1,
        v.email = email ∧
        v.passwordResetToken = some (bytesToHex (randomBytes 32)) ∧
        v.passwordResetTokenExpiry = some (now + tenMinutesMs)) := by
  constructor
  · intro hnone
    simp [asyncForgotPassword, hnone]
  · intro u0 h0
    have hmem : u0 ∈ users := List.mem_of_find?_eq_some h0
    have hemail : u0.email = email := by
      have := List.find?_some h0
      simpa using this
    refine ⟨fun hlen => by rw [bytesToHex_length, hlen], ?_, ?_, ?_, rfl, ?_⟩
    · cases fails <;> simp [asyncForgotPassword, h0]
    · simp [asyncForgotPassword, h0]
    · cases fails <;> simp [asyncForgotPassword, h0]
    · have h1 := List.mem_map_of_mem (fun u => if u.email = email then
        { u with
          passwordResetToken := some (bytesToHex (randomBytes 32))
          passwordResetTokenExpiry := some (now + tenMinutesMs) }
        else u) hmem
      refine ⟨(fun u => if u.email = email then
        { u with
          passwordResetToken := some (bytesToHex (randomBytes 32))
          passwordResetTokenExpiry := some (now + tenMinutesMs) }
        else u) u0, ?_, ?_⟩
      · cases fails <;> simpa [asyncForgotPassword, h0] using h1
      · simp [hemail]

/-- C6 witness: a singleton store; a request for the stored email (with a
failing email dispatch) persists the token and expiry and still responds
with the generic success message; an unknown email yields 404. -/
theorem c6_forgot_password_witness :
    (asyncForgotPassword (fun n => List.replicate n 0)
      [⟨1, "a@b", "al", "H", none, none⟩] "a@b" 100 true).2 =
      .ok "Password reset link sent to your email." ∧
    asyncForgotPassword (fun n => List.replicate n 0)
      [⟨1, "a@b", "al", "H", none, none⟩] "x@y" 100 false =
      ([⟨1, "a@b", "al", "H", none, none⟩],
        .error ⟨404, "Couldn\x27t find your account."⟩) := by
  constructor
  · exact ((c6_forgot_password (fun n => List.replicate n 0)
      [⟨1, "a@b", "al", "H", none, none⟩] "a@b" 100 true).2
      ⟨1, "a@b", "al", "H", none, none⟩ (by decide)).2.1
  · exact (c6_forgot_password (fun n => List.replicate n 0)
      [⟨1, "a@b", "al", "H", none, none⟩] "x@y" 100 false).1 (by decide)

/-- C7: registering with an email some row already holds, or a username
some row already holds, yields the 400 conflict error and leaves the
store unchanged; with neither taken the row is inserted. -/
theorem c7_duplicate_registration (hash : String → String)
    (mac : String → JwtPayload → String) (secret : String)
    (users : List User) (newId : Nat)
    (username email password : String) (now : Nat) :
    ((∃ u ∈ users, u.email = email) →
      asyncRegisterUser hash mac secret users newId username email password now =
        (users, .error ⟨400, "Email or username already exists."⟩)) ∧
    ((∃ u ∈ users, u.username = username) →
      asyncRegisterUser hash mac secret users newId username email password now =
        (users, .error ⟨400, "Email or username already exists."⟩)) ∧
    ((∀ u ∈ users, u.email ≠ email ∧ u.username ≠ username) →
      (asyncRegisterUser hash mac secret users newId username email password now).1 =
        users ++ [⟨newId, email, username, hash password, none, none⟩]) := by
  refine ⟨?_, ?_, ?_⟩
  · rintro ⟨u, hu, he⟩
    have hany : users.any (fun u => u.email = email || u.username = username) = true :=
      List.any_eq_true.mpr ⟨u, hu, by simp [he]⟩
    simp [asyncRegisterUser, hany]
  · rintro ⟨u, hu, hn⟩
    have hany : users.any (fun u => u.email = email || u.username = username) = true :=
      List.any_eq_true.mpr ⟨u, hu, by simp [hn]⟩
    simp [asyncRegisterUser, hany]
  · intro hok
    have hany : users.any (fun u => u.email = email || u.username = username) = false := by
      rw [List.any_eq_false]
      intro u hu
      simp [(hok u hu).1, (hok u hu).2]
    simp [asyncRegisterUser, hany]

/-- C7 witness: a store holding email a@b and username al; registering
with the same email but a fresh username conflicts, as does the same
username with a fresh email; a fresh pair inserts the new row. -/
theorem c7_duplicate_registration_witness :
    asyncRegisterUser (fun s => "h" ++ s) (fun _ _ => "sig") "k"
      [⟨1, "a@b", "al", "H", none, none⟩] 2 "bob" "a@b" "pw" 0 =
      ([⟨1, "a@b", "al", "H", none, none⟩],
        .error ⟨400, "Email or username already exists."⟩) ∧
    asyncRegisterUser (fun s => "h" ++ s) (fun _ _ => "sig") "k"
      [⟨1, "a@b", "al", "H", none, none⟩] 2 "al" "b@c" "pw" 0 =
      ([⟨1, "a@b", "al", "H", none, none⟩],
        .error ⟨400, "Email or username already exists."⟩) ∧
    (asyncRegisterUser (fun s => "h" ++ s) (fun _ _ => "sig") "k"
      [⟨1, "a@b", "al", "H", none, none⟩] 2 "bob" "b@c" "pw" 0).1 =
      [⟨1, "a@b", "al", "H", none, none⟩] ++ [⟨2, "b@c", "bob", "h" ++ "pw", none, none⟩] := by
  refine ⟨?_, ?_, ?_⟩
  · exact (c7_duplicate_registration (fun s => "h" ++ s) (fun _ _ => "sig") "k"
      [⟨1, "a@b", "al", "H", none, none⟩] 2 "bob" "a@b" "pw" 0).1 (by decide)
  · exact (c7_duplicate_registration (fun s => "h" ++ s) (fun _ _ => "sig") "k"
      [⟨1, "a@b", "al", "H", none, none⟩] 2 "al" "b@c" "pw" 0).2.1 (by decide)
  · exact (c7_duplicate_registration (fun s => "h" ++ s) (fun _ _ => "sig") "k"
      [⟨1, "a@b", "al", "H", none, none⟩] 2 "bob" "b@c" "pw" 0).2.2 (by decide)

/-- C8 counterexample: at the concrete input of a create with no title,
the code attaches status 404 to the validation error, not 400, so the
claimed 400 outcome does not occur (no post is created either way). -/
theorem c8_missing_title_counterexample :
    asyncCreatePost [] 10 1 none none =
      ([], .error ⟨404, "Please include a title field"⟩) ∧
    (asyncCreatePost [] 10 1 none none).2 ≠
      .error ⟨400, "Please include a title field"⟩ := by
  decide

/-- C8 amended: creating a post with a missing (or empty, hence falsy)
title fails with the please-include-a-title validation error carrying
status 404 and creates no post. -/
theorem c8_missing_title_rejected (posts : List Post) (userId newPid : Nat)
    (body : Option String) :
    asyncCreatePost posts userId newPid none body =
      (posts, .error ⟨404, "Please include a title field"⟩) ∧
    asyncCreatePost posts userId newPid (some "") body =
      (posts, .error ⟨404, "Please include a title field"⟩) := by
  constructor <;> simp [asyncCreatePost, jsFalsyStr]

/-- C9: when every stored row satisfies the both-set-or-both-null
invariant on the reset fields, the store left by registration, by a
reset request, and by a reset completion satisfies it too (registration
inserts with both null, a reset request writes both together, a
completion clears both together). -/
theorem c9_reset_fields_invariant (hash : String → String)
    (mac : String → JwtPayload → String) (secret : String)
    (randomBytes : Nat → List Nat) (users : List User)
    (newId : Nat) (username email password token newPassword : String)
    (now : Nat) (fails : Bool)
    (hinv : ∀ u ∈ users, resetConsistent u) :
    (∀ v ∈ (asyncRegisterUser hash mac secret users newId username email password now).1,
      resetConsistent v) ∧
    (∀ v ∈ (asyncForgotPassword randomBytes users email now fails).1,
      resetConsistent v) ∧
    (∀ v ∈ (asyncResetPassword hash users token newPassword now).1,
      resetConsistent v) := by
  refine ⟨?_, ?_, ?_⟩
  · by_cases hany : users.any (fun u => u.email = email || u.username = username) = true
    · simpa [asyncRegisterUser, hany] using hinv
    · intro v hv
      simp [asyncRegisterUser, hany] at hv
      rcases hv with hv | hv
      · exact hinv v hv
      · subst hv
        rfl
  · cases hfind : findUserByEmail users email with
    | none => simpa [asyncForgotPassword, hfind] using hinv
    | some u0 =>
      intro v hv
      have hv' : v ∈ users.map (fun u => if u.email = email then
          { u with
            passwordResetToken := some (bytesToHex (randomBytes 32))
            passwordResetTokenExpiry := some (now + tenMinutesMs) }
          else u) := by
        cases fails <;> simpa [asyncForgotPassword, hfind] using hv
      rw [List.mem_map] at hv'
      obtain ⟨u, hu, rfl⟩ := hv'
      by_cases he : u.email = email
      · simp [he, resetConsistent]
      · simpa [he] using hinv u hu
  · cases hfind : users.find? (fun u => resetMatch token now u) with
    | none => simpa [asyncResetPassword, hfind] using hinv
    | some u0 =>
      intro v hv
      simp [asyncResetPassword, hfind, List.mem_map] at hv
      obtain ⟨u, hu, rfl⟩ := hv
      by_cases hid : u.id = u0.id
      · simp [hid, resetConsistent]
      · simpa [hid] using hinv u hu

/-- C9 witness: a concrete reset request on a consistent singleton store
leaves the updated row with both fields set, hence consistent. -/
theorem c9_reset_fields_invariant_witness :
    resetConsistent ⟨1, "a@b", "al", "H",
      some (bytesToHex (List.replicate 32 0)), some (100 + tenMinutesMs)⟩ := by
  refine (c9_reset_fields_invariant (fun s => "h" ++ s) (fun _ _ => "sig") "k"
    (fun n => List.replicate n 0) [⟨1, "a@b", "al", "H", none, none⟩]
    2 "bob" "a@b" "pw" "t" "np" 100 false (by decide)).2.1
    ⟨1, "a@b", "al", "H",
      some (bytesToHex (List.replicate 32 0)), some (100 + tenMinutesMs)⟩ ?_
  decide

/-- C10: a successful registration response is exactly the input id,
username and email plus the signed token; a successful login response is
exactly that projection of the stored row the username resolved to; the
current-user response is exactly the {id, username, email} projection of
the stored row; whenever the middleware hands a non-null identity to the
downstream handler, it is the {id, username, email} projection of a
stored row; and the projection is independent of the stored password
hash. -/
theorem c10_responses_hide_password_hash
    (hash : String → String) (compare : String → String → Bool)
    (mac : String → JwtPayload → String) (secret : String)
    (verify : String → Option Nat) (users : List User)
    (newId : Nat) (username email password : String) (now : Nat)
    (uid : Nat) (authorization : Option String) :
    (∀ r, (asyncRegisterUser hash mac secret users newId username email password now).2 =
        .ok r →
      r = ⟨newId, username, email, generateJWT mac secret newId now⟩) ∧
    (∀ r, asyncLoginUser compare mac secret users username password now = .ok r →
      ∃ u, findUserByUsername users username = some u ∧
        r = ⟨u.id, u.username, u.email, generateJWT mac secret u.id now⟩) ∧
    (∀ ident, asyncGetUserData users uid = some ident →
      ∃ u, findUserById users uid = some u ∧ ident = u.project) ∧
    (∀ ident, Dispatch.handler (some ident) ∈ protect verify users authorization →
      ∃ i u, findUserById users i = some u ∧ ident = u.project) ∧
    (∀ (u : User) (pw : String), User.project { u with password := pw } = User.project u) := by
  refine ⟨?_, ?_, ?_, ?_, fun u pw => rfl⟩
  · intro r hr
    by_cases hany : users.any (fun u => u.email = email || u.username = username) = true
    · simp [asyncRegisterUser, hany] at hr
    · simp [asyncRegisterUser, hany] at hr
      exact hr.symm
  · intro r hr
    cases hfind : findUserByUsername users username with
    | none => simp [asyncLoginUser, hfind] at hr
    | some u =>
      by_cases hc : compare password u.password = true
      · refine ⟨u, rfl, ?_⟩
        simp [asyncLoginUser, hfind, hc] at hr
        exact hr.symm
      · simp [asyncLoginUser, hfind, hc] at hr
  · intro ident hident
    cases hfind : findUserById users uid with
    | none => simp [asyncGetUserData, hfind] at hident
    | some u =>
      refine ⟨u, rfl, ?_⟩
      simp [asyncGetUserData, hfind] at hident
      exact hident.symm
  · intro ident hmem
    cases authorization with
    | none => simp [protect] at hmem
    | some h =>
      by_cases hb : bearerScheme h = true
      · cases hv : verify (extractToken h) with
        | none => simp [protect, hb, hv] at hmem
        | some i =>
          cases hfind : findUserById users i with
          | none => simp [protect, hb, hv, hfind] at hmem
          | some u =>
            simp [protect, hb, hv, hfind] at hmem
            exact ⟨i, u, hfind, hmem⟩
      · simp [protect, hb] at hmem

/-- C10 witness: registering on an empty store yields exactly the
{id, username, email, token} body for the fresh row. -/
theorem c10_responses_hide_password_hash_witness :
    (⟨2, "bob", "b@c", generateJWT (fun _ _ => "sig") "k" 2 0⟩ : AuthResponse) =
      ⟨2, "bob", "b@c", generateJWT (fun _ _ => "sig") "k" 2 0⟩ := by
  exact (c10_responses_hide_password_hash (fun s => "h" ++ s) (fun _ _ => true)
    (fun _ _ => "sig") "k" (fun _ => none) [] 2 "bob" "b@c" "pw" 0 0 none).1
    ⟨2, "bob", "b@c", generateJWT (fun _ _ => "sig") "k" 2 0⟩ (by decide)

end AuthApp
